import Mathlib

/-!
Verification development for `src/project/static/jobseekerDashboard.js`.

The file is a browser dashboard controller: it fetches job applications and
summary statistics from two REST endpoints and writes markup into DOM
elements.  We give a shallow embedding of the controller:

* the DOM elements the script touches are a record of optional elements
  (`none` = the element is absent from the page);
* a fetch endpoint's behaviour for one load is an `Except JSError` value
  fixed in an environment `Env` (an `error` covers both a network failure
  and a JSON decode failure, which the script never distinguishes);
* JavaScript dynamic values that may fail a method call (`status.toLowerCase()`
  on a non-string) are an explicit `JSValue` with an `Except` on method calls;
* observable actions (fetch calls, `console` output, `setLoading` calls) are
  appended to an event log so temporal claims can be stated.
-/

/-- A JavaScript runtime value as far as this script inspects one: the
`status` field of an application record may be a string, a number, `null`
or `undefined`. -/
inductive JSValue where
  | str (s : String)
  | num (n : Int)
  | null
  | undef
  deriving DecidableEq, Repr

/-- Errors the embedded script can observe: a `TypeError` from calling a
method on a non-function / non-string, a network failure of `fetch`, and a
JSON decode failure of `response.json()`. -/
inductive JSError where
  | typeError
  | networkError
  | syntaxError
  deriving DecidableEq, Repr

deriving instance DecidableEq for Except

/-- `v.isStr` holds when the JavaScript value is a string. -/
def JSValue.isStr : JSValue → Bool
  | JSValue.str _ => true
  | _ => false

/-- `.toLowerCase()` on the characters of a string (ASCII lowering, the
range the badge keys live in). -/
def jsStringToLower (s : String) : String :=
  String.mk (s.data.map Char.toLower)

/-- `status.toLowerCase()`: succeeds with the lowercased string on a string
receiver and throws a `TypeError` on any non-string receiver. -/
def jsToLowerCase : JSValue → Except JSError String
  | JSValue.str s => Except.ok (jsStringToLower s)
  | _ => Except.error JSError.typeError

/-- JavaScript `opt || dflt` on an optional string: the default is taken when
the lookup produced nothing or a falsy (empty) string. -/
def jsOrStr (v : Option String) (dflt : String) : String :=
  match v with
  | some s => if s = "" then dflt else s
  | none => dflt

/-- JavaScript `x || 0` on an optional non-negative count. -/
def jsOrNat (v : Option Nat) : Nat :=
  match v with
  | some n => n
  | none => 0

/-- An application record as consumed by the renderer:
`{ id, job_title, company, status, applied_date }`.  The `status` field is a
raw `JSValue` because the script calls `.toLowerCase()` on it without
checking its type. -/
structure AppRecord where
  id : Int
  job_title : String
  company : String
  status : JSValue
  applied_date : String
  deriving DecidableEq, Repr

/-- The stats summary `{ total, pending, accepted, rejected }`, each field
optional (the script applies `|| 0`). -/
structure Stats where
  total : Option Nat
  pending : Option Nat
  accepted : Option Nat
  rejected : Option Nat
  deriving DecidableEq, Repr

/-- The DOM elements the script reads or writes.  `none` models an absent
element (`document.getElementById` / `querySelector` returning `null`).
For the table container the `String` is its `innerHTML`; for the KPI
elements it is their `textContent`; for `.dashboard-main` the element is
modelled by its class list. -/
structure DOM where
  appliedJobsTable : Option String
  kpiTotalApplications : Option String
  kpiPendingApplications : Option String
  kpiAcceptedApplications : Option String
  kpiRejectedApplications : Option String
  dashboardMainClasses : Option (List String)
  deriving DecidableEq, Repr

/-- Observable events of one run: fetch calls by URL, `console.error` /
`console.warn` output, and calls to `setLoading`. -/
inductive Event where
  | fetch (url : String)
  | consoleError (msg : String)
  | consoleWarn (msg : String)
  | setLoadingEv (isLoading : Bool)
  deriving DecidableEq, Repr

/-- The mutable world a run threads: the DOM plus the event log. -/
structure World where
  dom : DOM
  log : List Event
  deriving DecidableEq, Repr

/-- The execution environment of one dashboard load: what `fetch(url)`
followed by `response.json()` yields on each endpoint (the applications
endpoint returns `null` or an array of records; an `error` is a network
or decode failure), plus the host time zone's UTC offset in minutes,
which `toLocaleDateString` formats in. -/
structure Env where
  appsResponse : Except JSError (Option (List AppRecord))
  statsResponse : Except JSError Stats
  tzOffset : Int
  deriving Repr

/-- The `badges` object literal of `getStatusBadge`, as a key/value list. -/
def badges : List (String × String) :=
  [("pending", "<span class=\"badge badge-warning\">Pending</span>"),
   ("accepted", "<span class=\"badge badge-success\">Accepted</span>"),
   ("rejected", "<span class=\"badge badge-error\">Rejected</span>"),
   ("interviewing", "<span class=\"badge badge-info\">Interview</span>")]

/-- The fallback badge of `getStatusBadge`. -/
def unknownBadge : String := "<span class=\"badge badge-neutral\">Unknown</span>"

/-- The own property names of `Object.prototype` that consist only of
characters unchanged by `.toLowerCase()` — the only inherited keys
reachable from `badges[status.toLowerCase()]`.  An object literal
inherits them, and both hold truthy non-string values: the `Object`
constructor function and the `Object.prototype` object. -/
def objectProtoLowercaseKeys : List String := ["constructor", "__proto__"]

/-- What template interpolation renders those inherited values as:
`Object` stringifies to its function source form, `Object.prototype` to
"[object Object]". -/
def protoMemberDisplay (name : String) : String :=
  if name = "constructor" then "function Object() \x7b [native code] \x7d"
  else "[object Object]"

/-- `badges[statusLower]` as JavaScript bracket access: an own key of the
object literal, else the prototype chain (`Object.prototype`), else
`undefined` (`none`).  An inherited hit is a truthy non-string value;
it is carried here by its rendered string form. -/
def badgesAccess (statusLower : String) : Option String :=
  match badges.lookup statusLower with
  | some s => some s
  | none =>
      if statusLower ∈ objectProtoLowercaseKeys then
        some (protoMemberDisplay statusLower)
      else none

/-- `getStatusBadge(status)`: lowercases the status (a `TypeError` on a
non-string), reads `badges[statusLower]` — prototype chain included — and
falls back to the neutral badge via `||` only when that read is
`undefined` or falsy. -/
def getStatusBadge (status : JSValue) : Except JSError String :=
  match jsToLowerCase status with
  | Except.error e => Except.error e
  | Except.ok statusLower => Except.ok (jsOrStr (badgesAccess statusLower) unknownBadge)

/-- English three-letter month abbreviations used by the `en-US` locale with
`month: 'short'`. -/
def monthAbbrev : Nat → String
  | 1 => "Jan"
  | 2 => "Feb"
  | 3 => "Mar"
  | 4 => "Apr"
  | 5 => "May"
  | 6 => "Jun"
  | 7 => "Jul"
  | 8 => "Aug"
  | 9 => "Sep"
  | 10 => "Oct"
  | 11 => "Nov"
  | 12 => "Dec"
  | _ => ""

/-- Split a character list at every occurrence of `sep`. -/
def splitOnChar (sep : Char) : List Char → List (List Char)
  | [] => [[]]
  | c :: cs =>
      let rest := splitOnChar sep cs
      if c = sep then [] :: rest
      else
        match rest with
        | [] => [[c]]
        | r :: rs => (c :: r) :: rs

/-- Read a non-empty decimal digit sequence, accumulator form. -/
def digitsValAux : List Char → Nat → Option Nat
  | [], acc => some acc
  | c :: cs, acc =>
      if c.isDigit then digitsValAux cs (acc * 10 + (c.toNat - 48))
      else none

/-- Read a non-empty decimal digit sequence as a number. -/
def digitsVal : List Char → Option Nat
  | [] => none
  | cs => digitsValAux cs 0

/-- Whether a proleptic-Gregorian year is a leap year. -/
def isLeapYear (y : Nat) : Bool :=
  (y % 4 == 0 && y % 100 != 0) || y % 400 == 0

/-- Days in a month of the proleptic Gregorian calendar. -/
def daysInMonth (y m : Nat) : Nat :=
  if m = 2 then (if isLeapYear y then 29 else 28)
  else if m = 4 ∨ m = 6 ∨ m = 9 ∨ m = 11 then 30
  else 31

/-- `new Date("yyyy-mm-dd")` on a date-only string: the ISO parse,
accepted when month and day are in range; the resulting instant is
midnight UTC of that calendar date. -/
def parseISOdate (dateString : String) : Option (Nat × Nat × Nat) :=
  match (splitOnChar '-' dateString.data).map digitsVal with
  | [some y, some m, some d] =>
      if 1 ≤ m ∧ m ≤ 12 ∧ 1 ≤ d ∧ d ≤ daysInMonth y m then some (y, m, d)
      else none
  | _ => none

/-- The previous calendar day. -/
def prevCalendarDay (y m d : Nat) : Nat × Nat × Nat :=
  if 2 ≤ d then (y, m, d - 1)
  else if 2 ≤ m then (y, m - 1, daysInMonth y (m - 1))
  else (y - 1, 12, 31)

/-- `formatDate(dateString)`: models
`new Date(dateString).toLocaleDateString('en-US', ...)` with abbreviated
month, numeric day, numeric year.  The date-only string parses as
midnight UTC, while `toLocaleDateString` (no `timeZone` option) formats
that instant in the host time zone; `tzOffsetMinutes` is the host zone's
UTC offset in minutes at that instant.  Real-world offsets lie strictly
between −720 and +840, so a midnight-UTC instant renders as its own
calendar date under a non-negative offset and as the previous calendar
day under a negative (west-of-UTC) one.  Unparsable inputs render as
"Invalid Date".  Pure for a fixed host time zone. -/
def formatDate (tzOffsetMinutes : Int) (dateString : String) : String :=
  match parseISOdate dateString with
  | none => "Invalid Date"
  | some ymd =>
      let shown := if 0 ≤ tzOffsetMinutes then ymd else prevCalendarDay ymd.1 ymd.2.1 ymd.2.2
      monthAbbrev shown.2.1 ++ " " ++ toString shown.2.2 ++ ", " ++ toString shown.1

/-- `viewApplication(id)`: the value assigned to `window.location.href`,
i.e. the navigation target built from the record's identifier. -/
def viewApplication (id : Int) : String :=
  "/applications/" ++ toString id

/-- `renderEmptyState(container, icon, title, text)`: the markup the helper
assigns to `container.innerHTML`, with the template literal's whitespace
kept.  The `<td>` spans the table's five columns (`colspan="5"`). -/
def renderEmptyState (icon title text : String) : String :=
  "\n      <tr>\n        <td colspan=\"5\" class=\"empty-state-cell\">\n          <div class=\"empty-state\">\n            <div class=\"empty-state-icon\">" ++
  icon ++
  "</div>\n            <div class=\"empty-state-title\">" ++
  title ++
  "</div>\n            <div class=\"empty-state-text\">" ++
  text ++
  "</div>\n          </div>\n        </td>\n      </tr>\n    "

/-- The error fallback row of `loadAppliedJobs`, spanning all five columns. -/
def errorRowHTML : String :=
  "<tr><td colspan=\"5\" class=\"error-text\">Failed to load applications.</td></tr>"

/-- Constant pieces of the row template literal of `loadAppliedJobs`,
between the interpolated fields. -/
def rowPre1 : String := "\n        <tr>\n          <td><strong class=\"text-on-light\">"

/-- Row template piece between the job title and the company. -/
def rowPre2 : String := "</strong></td>\n          <td class=\"text-on-light-secondary\">"

/-- Row template piece between the company and the status badge. -/
def rowPre3 : String := "</td>\n          <td>"

/-- Row template piece between the status badge and the formatted date. -/
def rowPre4 : String := "</td>\n          <td class=\"text-on-light-secondary\">"

/-- Row template piece between the formatted date and the record id. -/
def rowPre5 : String :=
  "</td>\n          <td>\n            <button class=\"btn btn-sm btn-secondary\" onclick=\"JobseekerDashboard.viewApplication("

/-- Row template piece after the record id, closing the row. -/
def rowPre6 : String :=
  ")\">\n              View\n            </button>\n          </td>\n        </tr>\n      "

/-- One rendered table row: the row template literal with the record's
fields interpolated (the numeric `id` is coerced to a string). -/
def rowHTML (title company badge date : String) (id : Int) : String :=
  rowPre1 ++ title ++ rowPre2 ++ company ++ rowPre3 ++ badge ++ rowPre4 ++
  date ++ rowPre5 ++ toString id ++ rowPre6

/-- The arrow body of `applications.map(...)`: renders one row in the
host time zone `tz`, propagating the `TypeError` that `getStatusBadge` throws on a non-string status. -/
def renderRow (tz : Int) (app : AppRecord) : Except JSError String :=
  match getStatusBadge app.status with
  | Except.error e => Except.error e
  | Except.ok badge =>
      Except.ok (rowHTML app.job_title app.company badge
        (formatDate tz app.applied_date) app.id)

/-- `applications.map(app => ...)` evaluated left to right: the first throw
aborts the whole mapping (and is caught by the surrounding `try`). -/
def renderRows (tz : Int) : List AppRecord → Except JSError (List String)
  | [] => Except.ok []
  | app :: rest =>
      match renderRow tz app with
      | Except.error e => Except.error e
      | Except.ok row =>
          match renderRows tz rest with
          | Except.error e => Except.error e
          | Except.ok rows => Except.ok (row :: rows)

/-- The empty-state markup `loadAppliedJobs` writes on an empty or `null`
applications list. -/
def noApplicationsHTML : String :=
  renderEmptyState "📋" "No applications yet" "Start browsing jobs to apply!"

/-- `setLoading(isLoading)` restricted to the DOM:
`document.querySelector('.dashboard-main')` may be absent (no-op); otherwise
`classList.add('loading-fade')` or `classList.remove('loading-fade')`. -/
def setLoading (isLoading : Bool) (d : DOM) : DOM :=
  match d.dashboardMainClasses with
  | none => d
  | some cls =>
      let newCls : List String :=
        if isLoading then (if "loading-fade" ∈ cls then cls else cls ++ ["loading-fade"])
        else cls.filter (fun c => c ≠ "loading-fade")
      { d with dashboardMainClasses := some newCls }

/-- Whether `.dashboard-main` currently carries the `loading-fade` class. -/
def hasLoadingFade (d : DOM) : Bool :=
  match d.dashboardMainClasses with
  | none => false
  | some cls => cls.contains "loading-fade"

/-- `setLoading` as a traced world action: the call is logged, the DOM
effect is `setLoading`. -/
def setLoadingOp (isLoading : Bool) (w : World) : World :=
  { dom := setLoading isLoading w.dom,
    log := w.log ++ [Event.setLoadingEv isLoading] }

/-- The outcome of the `try` block of `loadAppliedJobs` once the container
exists: the empty state on a `null` or zero-length list, the
separator-free join of the mapped rows otherwise; an `error` is whatever
the fetch, the decode, or the row mapping threw. -/
def appliedJobsResult (env : Env) : Except JSError String :=
  match env.appsResponse with
  | Except.error e => Except.error e
  | Except.ok none => Except.ok noApplicationsHTML
  | Except.ok (some apps) =>
      if apps.isEmpty then Except.ok noApplicationsHTML
      else
        match renderRows env.tzOffset apps with
        | Except.error e => Except.error e
        | Except.ok rows => Except.ok (String.join rows)

/-- The innerHTML `loadAppliedJobs` writes once the container exists: the
`try` block's markup, or — the `catch` branch — the error fallback row. -/
def appliedJobsHTML (env : Env) : String :=
  match appliedJobsResult env with
  | Except.ok html => html
  | Except.error _ => errorRowHTML

/-- `loadAppliedJobs()`: returns silently when the `appliedJobsTable`
container is absent; otherwise fetches the applications endpoint and
writes `appliedJobsHTML` into `container.innerHTML`.  The `try` encloses
the whole body, so the function itself never throws. -/
def loadAppliedJobs (env : Env) (w : World) : World :=
  match w.dom.appliedJobsTable with
  | none => w
  | some _ =>
      { dom := { w.dom with appliedJobsTable := some (appliedJobsHTML env) },
        log := w.log ++ [Event.fetch "/api/jobseeker/applications"] }

/-- `updateKPIs()`: fetches the stats endpoint; on success writes each of
the four counters (`|| 0` defaulting, number coerced to text) into its
element when that element exists, skipping absent ones; on a fetch or
decode failure only warns, leaving the DOM untouched.  The `try` encloses
the whole body, so the function itself never throws. -/
def updateKPIs (env : Env) (w : World) : World :=
  let w1 : World := { w with log := w.log ++ [Event.fetch "/api/jobseeker/stats"] }
  match env.statsResponse with
  | Except.error _ =>
      { w1 with log := w1.log ++ [Event.consoleWarn "Could not update KPIs"] }
  | Except.ok stats =>
      { w1 with dom :=
          { w1.dom with
            kpiTotalApplications :=
              w1.dom.kpiTotalApplications.map (fun _ => toString (jsOrNat stats.total)),
            kpiPendingApplications :=
              w1.dom.kpiPendingApplications.map (fun _ => toString (jsOrNat stats.pending)),
            kpiAcceptedApplications :=
              w1.dom.kpiAcceptedApplications.map (fun _ => toString (jsOrNat stats.accepted)),
            kpiRejectedApplications :=
              w1.dom.kpiRejectedApplications.map (fun _ => toString (jsOrNat stats.rejected)) } }

/-- The method names the `JobseekerDashboard` object literal defines.
`loadNotifications` is referenced by `loadDashboardData` but never defined
here. -/
def jobseekerDashboardMethods : List String :=
  ["init", "loadDashboardData", "loadAppliedJobs", "updateKPIs",
   "getStatusBadge", "renderEmptyState", "setLoading", "formatDate",
   "viewApplication"]

/-- Property lookup on `this`: whether the controller defines a method of
that name. -/
def hasMethod (name : String) : Bool :=
  jobseekerDashboardMethods.contains name

/-- The `Promise.all([...])` group of `loadDashboardData`.  The argument
array's elements are evaluated left to right:
`this.loadAppliedJobs()` runs, then `this.loadNotifications()` — a property
lookup that yields `undefined` when the method is not defined, whose
invocation then throws a `TypeError` before `this.updateKPIs()` is ever
evaluated.  Returns the world reached so far together with the error, if
any, that escaped to the enclosing `try`. -/
def promiseAllGroup (env : Env) (w : World) : World × Option JSError :=
  let w1 := loadAppliedJobs env w
  if hasMethod "loadNotifications" then
    (updateKPIs env w1, none)
  else
    (w1, some JSError.typeError)

/-- `loadDashboardData()`: sets the loading state, runs the parallel fetch
group inside `try`, logs `console.error('Dashboard data sync failed:', ...)`
in `catch` when the group threw, and clears the loading state in
`finally`. -/
def loadDashboardData (env : Env) (w : World) : World :=
  let w1 := setLoadingOp true w
  let (w2, err) := promiseAllGroup env w1
  let w3 :=
    match err with
    | some _ => { w2 with log := w2.log ++ [Event.consoleError "Dashboard data sync failed:"] }
    | none => w2
  setLoadingOp false w3

/-- `pat` occurs as a contiguous substring of `s`. -/
def strIncludes (pat s : String) : Prop :=
  pat.data <:+: s.data

theorem strIncludes_of_split (pat s a b : String) (h : s = a ++ pat ++ b) :
    strIncludes pat s := by
  subst h
  unfold strIncludes
  rw [String.data_append, String.data_append]
  exact List.infix_append _ _ _

/-- Counterexample to C8 as stated: in a west-of-UTC host time zone
(offset −300 minutes, US Eastern), `formatDate("2024-01-05")` prints the
previous calendar day, `"Jan 4, 2024"`, not `"Jan 5, 2024"`: the
date-only string parses as midnight UTC and `toLocaleDateString` formats
in the host zone. -/
theorem formatDate_west_of_utc_counterexample :
    formatDate (-300) "2024-01-05" = "Jan 4, 2024"
    ∧ formatDate (-300) "2024-01-05" ≠ "Jan 5, 2024" := by
  decide

/-- C8 (amended): `formatDate("2024-01-05")` yields `"Jan 5, 2024"`
(abbreviated month, numeric day, numeric year, en-US style) exactly in
hosts whose UTC offset is non-negative; in any west-of-UTC host the
UTC-midnight parse combined with local-time formatting yields the
previous calendar day, `"Jan 4, 2024"`.  For a fixed host time zone
`formatDate` is a pure function of the embedding with no side effects. -/
theorem formatDate_utc_parse_local_format (tz : Int) :
    (0 ≤ tz → formatDate tz "2024-01-05" = "Jan 5, 2024")
    ∧ (tz < 0 → formatDate tz "2024-01-05" = "Jan 4, 2024") := by
  have hp : parseISOdate "2024-01-05" = some (2024, 1, 5) := by decide
  constructor
  · intro h
    unfold formatDate
    rw [hp]
    simp only [h, if_true]
    decide
  · intro h
    have hn : ¬ (0 : Int) ≤ tz := not_le.mpr h
    unfold formatDate
    rw [hp]
    simp only [hn, if_false]
    decide

/-- Witness for C8: the amended theorem applied at the concrete offsets
0 (UTC) and −300 (US Eastern). -/
theorem formatDate_utc_parse_local_format_witness :
    ((0 : Int) ≤ 0 ∧ formatDate 0 "2024-01-05" = "Jan 5, 2024")
    ∧ ((-300 : Int) < 0 ∧ formatDate (-300) "2024-01-05" = "Jan 4, 2024") :=
  ⟨⟨by decide, (formatDate_utc_parse_local_format 0).1 (by decide)⟩,
   ⟨by decide, (formatDate_utc_parse_local_format (-300)).2 (by decide)⟩⟩

/-- Counterexample to C1 as stated: `"constructor"` lowercases to none of
the four badge keys, yet `getStatusBadge("constructor")` does not return
the neutral "Unknown" badge — `badges["constructor"]` hits the truthy
`Object` constructor inherited from `Object.prototype`, which `||` keeps. -/
theorem getStatusBadge_prototype_counterexample :
    jsStringToLower "constructor" ≠ "pending"
    ∧ jsStringToLower "constructor" ≠ "accepted"
    ∧ jsStringToLower "constructor" ≠ "rejected"
    ∧ jsStringToLower "constructor" ≠ "interviewing"
    ∧ getStatusBadge (JSValue.str "constructor")
        ≠ Except.ok "<span class=\"badge badge-neutral\">Unknown</span>" := by
  decide

/-- C1 (amended): for every status string `S`, `getStatusBadge(S)` returns
(never throws) the warning badge when `S` lowercases to `"pending"`, the
success badge for `"accepted"`, the error badge for `"rejected"`, the
info badge for `"interviewing"`, and the neutral "Unknown" badge for
every other string — including the empty string and `"PENDING"` — EXCEPT
the strings lowercasing to `"constructor"` or `"__proto__"`: there the
bracket access hits a truthy member inherited from `Object.prototype`,
which is returned instead of the "Unknown" badge. -/
theorem getStatusBadge_string_mapping (s : String) :
    getStatusBadge (JSValue.str s) =
      Except.ok
        (if jsStringToLower s = "pending" then "<span class=\"badge badge-warning\">Pending</span>"
         else if jsStringToLower s = "accepted" then "<span class=\"badge badge-success\">Accepted</span>"
         else if jsStringToLower s = "rejected" then "<span class=\"badge badge-error\">Rejected</span>"
         else if jsStringToLower s = "interviewing" then "<span class=\"badge badge-info\">Interview</span>"
         else if jsStringToLower s = "constructor" ∨ jsStringToLower s = "__proto__" then
           protoMemberDisplay (jsStringToLower s)
         else "<span class=\"badge badge-neutral\">Unknown</span>")
    ∧ protoMemberDisplay "constructor" ≠ "<span class=\"badge badge-neutral\">Unknown</span>"
    ∧ protoMemberDisplay "__proto__" ≠ "<span class=\"badge badge-neutral\">Unknown</span>" := by
  refine ⟨?_, by decide, by decide⟩
  unfold getStatusBadge jsToLowerCase badgesAccess
  by_cases h1 : jsStringToLower s = "pending"
  · simp [badges, List.lookup, h1, jsOrStr, unknownBadge]
  · have e1 : (jsStringToLower s == "pending") = false := beq_eq_false_iff_ne.mpr h1
    by_cases h2 : jsStringToLower s = "accepted"
    · simp [badges, List.lookup, e1, h1, h2, jsOrStr, unknownBadge]
    · have e2 : (jsStringToLower s == "accepted") = false := beq_eq_false_iff_ne.mpr h2
      by_cases h3 : jsStringToLower s = "rejected"
      · simp [badges, List.lookup, e1, e2, h1, h2, h3, jsOrStr, unknownBadge]
      · have e3 : (jsStringToLower s == "rejected") = false := beq_eq_false_iff_ne.mpr h3
        by_cases h4 : jsStringToLower s = "interviewing"
        · simp [badges, List.lookup, e1, e2, e3, h1, h2, h3, h4, jsOrStr, unknownBadge]
        · have e4 : (jsStringToLower s == "interviewing") = false := beq_eq_false_iff_ne.mpr h4
          by_cases h5 : jsStringToLower s = "constructor"
          · simp +decide [badges, List.lookup, objectProtoLowercaseKeys, e1, e2, e3, e4,
              h1, h2, h3, h4, h5, jsOrStr, protoMemberDisplay, unknownBadge]
          · by_cases h6 : jsStringToLower s = "__proto__"
            · simp +decide [badges, List.lookup, objectProtoLowercaseKeys, e1, e2, e3, e4,
                h1, h2, h3, h4, h5, h6, jsOrStr, protoMemberDisplay, unknownBadge]
            · simp [badges, List.lookup, objectProtoLowercaseKeys, e1, e2, e3, e4,
                h1, h2, h3, h4, h5, h6, jsOrStr, unknownBadge]

/-- C3: on a failing stats fetch (network or decode failure), `updateKPIs`
leaves the whole DOM — in particular each of the four KPI counter
elements — unchanged; being a total function of the embedding (its `try`
encloses the body), the call raises nothing to its caller. -/
theorem updateKPIs_failure_keeps_dom (env : Env) (w : World) (e : JSError)
    (h : env.statsResponse = Except.error e) :
    (updateKPIs env w).dom = w.dom := by
  unfold updateKPIs
  rw [h]

/-- C4: on a failing applications fetch (network or parse error), with the
container present, `loadAppliedJobs` sets the container's content to
exactly the single error row spanning all five columns; the error is
swallowed inside the function. -/
theorem loadAppliedJobs_failure_error_row (env : Env) (w : World) (e : JSError)
    (html : String)
    (happs : env.appsResponse = Except.error e)
    (hc : w.dom.appliedJobsTable = some html) :
    (loadAppliedJobs env w).dom.appliedJobsTable = some errorRowHTML
    ∧ errorRowHTML
        = "<tr><td colspan=\"5\" class=\"error-text\">Failed to load applications.</td></tr>" := by
  constructor
  · unfold loadAppliedJobs
    rw [hc]
    unfold appliedJobsHTML appliedJobsResult
    rw [happs]
  · rfl

/-- A sample page: applications container and `.dashboard-main` present,
one KPI counter absent, stale values in the others. -/
def sampleDOM : DOM :=
  { appliedJobsTable := some "",
    kpiTotalApplications := some "0",
    kpiPendingApplications := none,
    kpiAcceptedApplications := some "1",
    kpiRejectedApplications := some "2",
    dashboardMainClasses := some [] }

/-- The sample page with an empty event log. -/
def sampleWorld : World := { dom := sampleDOM, log := [] }

/-- A page on which every element the script looks for is absent. -/
def bareDOM : DOM :=
  { appliedJobsTable := none,
    kpiTotalApplications := none,
    kpiPendingApplications := none,
    kpiAcceptedApplications := none,
    kpiRejectedApplications := none,
    dashboardMainClasses := none }

/-- The bare page with an empty event log. -/
def bareWorld : World := { dom := bareDOM, log := [] }

/-- Both endpoints fail (network failure / decode failure). -/
def failingEnv : Env :=
  Env.mk (Except.error JSError.networkError) (Except.error JSError.syntaxError) 0

/-- The applications endpoint returns an empty array. -/
def emptyListEnv : Env :=
  Env.mk (Except.ok (some [])) (Except.ok (Stats.mk none none none none)) 0

/-- A concrete stats summary with one field absent. -/
def sampleStats : Stats := Stats.mk (some 7) (some 3) none (some 1)

/-- The applications endpoint returns `null`; the stats endpoint succeeds. -/
def nullAppsEnv : Env := Env.mk (Except.ok none) (Except.ok sampleStats) 0

/-- Witness for C3: the theorem applied to a concrete failing stats fetch
on the sample page. -/
theorem updateKPIs_failure_keeps_dom_witness :
    failingEnv.statsResponse = Except.error JSError.syntaxError
    ∧ (updateKPIs failingEnv sampleWorld).dom = sampleWorld.dom :=
  ⟨rfl, updateKPIs_failure_keeps_dom failingEnv sampleWorld JSError.syntaxError rfl⟩

/-- Witness for C4: the theorem applied to a concrete failing applications
fetch on the sample page. -/
theorem loadAppliedJobs_failure_error_row_witness :
    failingEnv.appsResponse = Except.error JSError.networkError
    ∧ sampleWorld.dom.appliedJobsTable = some ""
    ∧ ((loadAppliedJobs failingEnv sampleWorld).dom.appliedJobsTable = some errorRowHTML
       ∧ errorRowHTML
           = "<tr><td colspan=\"5\" class=\"error-text\">Failed to load applications.</td></tr>") :=
  ⟨rfl, rfl,
    loadAppliedJobs_failure_error_row failingEnv sampleWorld JSError.networkError "" rfl rfl⟩

set_option maxRecDepth 20000 in
/-- C6: on a successful fetch whose applications list is `null` or empty,
`loadAppliedJobs` sets the container's content to exactly the empty-state
template with icon "📋", title "No applications yet", text
"Start browsing jobs to apply!", whose cell spans the table's five columns
(`colspan="5"`). -/
theorem loadAppliedJobs_empty_renders_empty_state (env : Env) (w : World) (html : String)
    (happs : env.appsResponse = Except.ok none ∨ env.appsResponse = Except.ok (some []))
    (hc : w.dom.appliedJobsTable = some html) :
    (loadAppliedJobs env w).dom.appliedJobsTable
      = some (renderEmptyState "📋" "No applications yet" "Start browsing jobs to apply!")
    ∧ strIncludes "colspan=\"5\""
        (renderEmptyState "📋" "No applications yet" "Start browsing jobs to apply!") := by
  constructor
  · cases happs with
    | inl h =>
        unfold loadAppliedJobs
        rw [hc]
        unfold appliedJobsHTML appliedJobsResult
        rw [h]
        simp [noApplicationsHTML]
    | inr h =>
        unfold loadAppliedJobs
        rw [hc]
        unfold appliedJobsHTML appliedJobsResult
        rw [h]
        simp [List.isEmpty, noApplicationsHTML]
  · exact strIncludes_of_split _ _
      "\n      <tr>\n        <td "
      (" class=\"empty-state-cell\">\n          <div class=\"empty-state\">\n            <div class=\"empty-state-icon\">📋</div>\n            <div class=\"empty-state-title\">No applications yet</div>\n            <div class=\"empty-state-text\">Start browsing jobs to apply!</div>\n          </div>\n        </td>\n      </tr>\n    ")
      (by decide)

/-- Witness for C6: the theorem applied to a concrete `null` applications
response on the sample page. -/
theorem loadAppliedJobs_empty_renders_empty_state_witness :
    nullAppsEnv.appsResponse = Except.ok none
    ∧ sampleWorld.dom.appliedJobsTable = some ""
    ∧ ((loadAppliedJobs nullAppsEnv sampleWorld).dom.appliedJobsTable
         = some (renderEmptyState "📋" "No applications yet" "Start browsing jobs to apply!")
       ∧ strIncludes "colspan=\"5\""
           (renderEmptyState "📋" "No applications yet" "Start browsing jobs to apply!")) :=
  ⟨rfl, rfl,
    loadAppliedJobs_empty_renders_empty_state nullAppsEnv sampleWorld "" (Or.inl rfl) rfl⟩

/-- C9: every DOM-touching operation tolerates an absent target element:
`loadAppliedJobs` returns the world untouched — in particular it issues no
fetch — when the applications container is absent; `updateKPIs` on a
successful stats fetch maps each of the four counters to the written value
exactly when that element is present (an absent counter stays absent, the
present ones are written); and `setLoading` leaves the DOM unchanged when
`.dashboard-main` is absent.  All three are total functions of the
embedding, so no absence raises an error. -/
theorem dom_absence_tolerated (env env2 : Env) (w w2 : World) (stats : Stats)
    (b : Bool) (d : DOM)
    (h1 : w.dom.appliedJobsTable = none)
    (h2 : env2.statsResponse = Except.ok stats)
    (h3 : d.dashboardMainClasses = none) :
    loadAppliedJobs env w = w
    ∧ (updateKPIs env2 w2).dom.kpiTotalApplications
        = w2.dom.kpiTotalApplications.map (fun _ => toString (jsOrNat stats.total))
    ∧ (updateKPIs env2 w2).dom.kpiPendingApplications
        = w2.dom.kpiPendingApplications.map (fun _ => toString (jsOrNat stats.pending))
    ∧ (updateKPIs env2 w2).dom.kpiAcceptedApplications
        = w2.dom.kpiAcceptedApplications.map (fun _ => toString (jsOrNat stats.accepted))
    ∧ (updateKPIs env2 w2).dom.kpiRejectedApplications
        = w2.dom.kpiRejectedApplications.map (fun _ => toString (jsOrNat stats.rejected))
    ∧ setLoading b d = d := by
  refine ⟨?_, ?_, ?_, ?_, ?_, ?_⟩
  · unfold loadAppliedJobs
    rw [h1]
  · unfold updateKPIs
    rw [h2]
  · unfold updateKPIs
    rw [h2]
  · unfold updateKPIs
    rw [h2]
  · unfold updateKPIs
    rw [h2]
  · unfold setLoading
    rw [h3]

/-- Witness for C9: a bare page for the absence cases, the sample page
(one counter absent, three present) for the KPI write case. -/
theorem dom_absence_tolerated_witness :
    bareWorld.dom.appliedJobsTable = none
    ∧ nullAppsEnv.statsResponse = Except.ok sampleStats
    ∧ bareDOM.dashboardMainClasses = none
    ∧ (loadAppliedJobs failingEnv bareWorld = bareWorld
       ∧ (updateKPIs nullAppsEnv sampleWorld).dom.kpiTotalApplications
           = sampleWorld.dom.kpiTotalApplications.map (fun _ => toString (jsOrNat sampleStats.total))
       ∧ (updateKPIs nullAppsEnv sampleWorld).dom.kpiPendingApplications
           = sampleWorld.dom.kpiPendingApplications.map (fun _ => toString (jsOrNat sampleStats.pending))
       ∧ (updateKPIs nullAppsEnv sampleWorld).dom.kpiAcceptedApplications
           = sampleWorld.dom.kpiAcceptedApplications.map (fun _ => toString (jsOrNat sampleStats.accepted))
       ∧ (updateKPIs nullAppsEnv sampleWorld).dom.kpiRejectedApplications
           = sampleWorld.dom.kpiRejectedApplications.map (fun _ => toString (jsOrNat sampleStats.rejected))
       ∧ setLoading true bareDOM = bareDOM) :=
  ⟨rfl, rfl, rfl,
    dom_absence_tolerated failingEnv nullAppsEnv bareWorld sampleWorld sampleStats
      true bareDOM rfl rfl rfl⟩

/-- `getStatusBadge` throws a `TypeError` on every non-string status, since
it unconditionally calls `.toLowerCase()` on its argument. -/
theorem getStatusBadge_nonstring (v : JSValue) (hv : v.isStr = false) :
    getStatusBadge v = Except.error JSError.typeError := by
  cases v with
  | str s => simp [JSValue.isStr] at hv
  | num n => rfl
  | null => rfl
  | undef => rfl

/-- If one record of the list fails to render, the whole left-to-right
mapping fails. -/
theorem renderRows_error_of_mem (tz : Int) (l : List AppRecord) (app : AppRecord) (e : JSError)
    (hmem : app ∈ l) (herr : renderRow tz app = Except.error e) :
    ∃ e2, renderRows tz l = Except.error e2 := by
  induction l with
  | nil => cases hmem
  | cons hd tl ih =>
    rcases List.mem_cons.mp hmem with h | h
    · subst h
      refine ⟨e, ?_⟩
      unfold renderRows
      rw [herr]
    · cases hr : renderRow tz hd with
      | error e3 =>
          refine ⟨e3, ?_⟩
          unfold renderRows
          rw [hr]
      | ok row =>
          rcases ih h with ⟨e2, h2⟩
          refine ⟨e2, ?_⟩
          unfold renderRows
          rw [hr, h2]

/-- C10: for any non-string status value (`null`, `undefined`, or a
number), `getStatusBadge` throws a `TypeError` because it unconditionally
calls `.toLowerCase()`; hence inside `loadAppliedJobs` a record carrying
such a status diverts a successful fetch of a non-empty list to the error
row instead of rendering the table. -/
theorem nonstring_status_diverts_to_error_row (v : JSValue) (env : Env) (w : World)
    (l : List AppRecord) (app : AppRecord) (html : String)
    (hv : v.isStr = false)
    (happs : env.appsResponse = Except.ok (some l))
    (hmem : app ∈ l)
    (hstat : app.status.isStr = false)
    (hc : w.dom.appliedJobsTable = some html) :
    getStatusBadge v = Except.error JSError.typeError
    ∧ (loadAppliedJobs env w).dom.appliedJobsTable = some errorRowHTML := by
  constructor
  · exact getStatusBadge_nonstring v hv
  · have herr : renderRow env.tzOffset app = Except.error JSError.typeError := by
      unfold renderRow
      rw [getStatusBadge_nonstring app.status hstat]
    obtain ⟨e2, h2⟩ := renderRows_error_of_mem env.tzOffset l app JSError.typeError hmem herr
    have hne : l.isEmpty = false := by
      cases l with
      | nil => cases hmem
      | cons a t => rfl
    unfold loadAppliedJobs
    rw [hc]
    unfold appliedJobsHTML appliedJobsResult
    rw [happs]
    simp [hne, h2]

/-- A record whose `status` field is the number `1`, not a string. -/
def badRecord : AppRecord := AppRecord.mk 9 "Dev" "Acme" (JSValue.num 1) "2024-01-05"

/-- The applications endpoint returns a one-record list with a numeric
status. -/
def badStatusEnv : Env :=
  Env.mk (Except.ok (some [badRecord])) (Except.ok sampleStats) 0

/-- Witness for C10: the theorem applied to a concrete numeric status. -/
theorem nonstring_status_diverts_to_error_row_witness :
    (JSValue.num 1).isStr = false
    ∧ badStatusEnv.appsResponse = Except.ok (some [badRecord])
    ∧ badRecord ∈ [badRecord]
    ∧ badRecord.status.isStr = false
    ∧ sampleWorld.dom.appliedJobsTable = some ""
    ∧ (getStatusBadge (JSValue.num 1) = Except.error JSError.typeError
       ∧ (loadAppliedJobs badStatusEnv sampleWorld).dom.appliedJobsTable = some errorRowHTML) :=
  ⟨rfl, rfl, List.mem_singleton.mpr rfl, rfl, rfl,
    nonstring_status_diverts_to_error_row (JSValue.num 1) badStatusEnv sampleWorld
      [badRecord] badRecord "" rfl rfl (List.mem_singleton.mpr rfl) rfl rfl⟩

/-- The row a record with a string status renders to in host time zone
`tz` (the `""` branch is never reached under that hypothesis). -/
def rowOfRecord (tz : Int) (app : AppRecord) : String :=
  match getStatusBadge app.status with
  | Except.ok badge =>
      rowHTML app.job_title app.company badge (formatDate tz app.applied_date) app.id
  | Except.error _ => ""

/-- `getStatusBadge` succeeds on every string status. -/
theorem getStatusBadge_str_ok (v : JSValue) (h : v.isStr = true) :
    ∃ b, getStatusBadge v = Except.ok b := by
  cases v with
  | str s => exact ⟨_, rfl⟩
  | num n => simp [JSValue.isStr] at h
  | null => simp [JSValue.isStr] at h
  | undef => simp [JSValue.isStr] at h

/-- A record with a string status renders to `rowOfRecord`. -/
theorem renderRow_ok (tz : Int) (app : AppRecord) (h : app.status.isStr = true) :
    renderRow tz app = Except.ok (rowOfRecord tz app) := by
  obtain ⟨b, hb⟩ := getStatusBadge_str_ok app.status h
  unfold renderRow rowOfRecord
  rw [hb]

/-- When every status is a string, the mapping succeeds and is the
element-wise `rowOfRecord`. -/
theorem renderRows_map (tz : Int) (l : List AppRecord)
    (h : ∀ app ∈ l, app.status.isStr = true) :
    renderRows tz l = Except.ok (l.map (rowOfRecord tz)) := by
  induction l with
  | nil => rfl
  | cons hd tl ih =>
      have h1 := renderRow_ok tz hd (h hd (List.mem_cons_self hd tl))
      have h2 := ih (fun a ha => h a (List.mem_cons_of_mem hd ha))
      unfold renderRows
      rw [h1, h2]
      rfl

/-- The part of `rowPre5` before the interpolated `onclick` call target. -/
def rowPre5a : String :=
  "</td>\n          <td>\n            <button class=\"btn btn-sm btn-secondary\" onclick=\""

/-- The part of `rowPre6` after the closing parenthesis of the `onclick`
call. -/
def rowPre6b : String :=
  "\">\n              View\n            </button>\n          </td>\n        </tr>\n      "

set_option maxRecDepth 20000 in
theorem rowPre5_split : rowPre5 = rowPre5a ++ "JobseekerDashboard.viewApplication(" := by
  decide

set_option maxRecDepth 20000 in
theorem rowPre6_split : rowPre6 = ")" ++ rowPre6b := by
  decide

theorem rowHTML_includes_title (t c b d : String) (i : Int) :
    strIncludes t (rowHTML t c b d i) :=
  strIncludes_of_split t _ rowPre1
    (rowPre2 ++ c ++ rowPre3 ++ b ++ rowPre4 ++ d ++ rowPre5 ++ toString i ++ rowPre6)
    (by simp [rowHTML, String.append_assoc])

theorem rowHTML_includes_company (t c b d : String) (i : Int) :
    strIncludes c (rowHTML t c b d i) :=
  strIncludes_of_split c _ (rowPre1 ++ t ++ rowPre2)
    (rowPre3 ++ b ++ rowPre4 ++ d ++ rowPre5 ++ toString i ++ rowPre6)
    (by simp [rowHTML, String.append_assoc])

theorem rowHTML_includes_badge (t c b d : String) (i : Int) :
    strIncludes b (rowHTML t c b d i) :=
  strIncludes_of_split b _ (rowPre1 ++ t ++ rowPre2 ++ c ++ rowPre3)
    (rowPre4 ++ d ++ rowPre5 ++ toString i ++ rowPre6)
    (by simp [rowHTML, String.append_assoc])

theorem rowHTML_includes_date (t c b d : String) (i : Int) :
    strIncludes d (rowHTML t c b d i) :=
  strIncludes_of_split d _ (rowPre1 ++ t ++ rowPre2 ++ c ++ rowPre3 ++ b ++ rowPre4)
    (rowPre5 ++ toString i ++ rowPre6)
    (by simp [rowHTML, String.append_assoc])

theorem rowHTML_includes_view (t c b d : String) (i : Int) :
    strIncludes ("JobseekerDashboard.viewApplication(" ++ toString i ++ ")")
      (rowHTML t c b d i) :=
  strIncludes_of_split _ _
    (rowPre1 ++ t ++ rowPre2 ++ c ++ rowPre3 ++ b ++ rowPre4 ++ d ++ rowPre5a)
    rowPre6b
    (by simp [rowHTML, rowPre5_split, rowPre6_split, String.append_assoc])

/-- C7: on a successful fetch of a non-empty applications list (each status
a string), the renderer produces exactly one row fragment per record, the
container's content is their separator-free join, and each fragment
contains that record's job title, company, the badge mapped from its
status, its formatted applied date, and a View action addressed to the
record's identifier, whose navigation target is `/applications/<id>`. -/
theorem loadAppliedJobs_renders_each_record (env : Env) (w : World)
    (l : List AppRecord) (html : String)
    (happs : env.appsResponse = Except.ok (some l))
    (hne : l ≠ [])
    (hstr : ∀ app ∈ l, app.status.isStr = true)
    (hc : w.dom.appliedJobsTable = some html) :
    ∃ rows : List String,
      renderRows env.tzOffset l = Except.ok rows
      ∧ rows.length = l.length
      ∧ (loadAppliedJobs env w).dom.appliedJobsTable = some (String.join rows)
      ∧ (∀ (i : Nat) (hi : i < l.length) (hj : i < rows.length),
          strIncludes (l[i].job_title) (rows[i])
          ∧ strIncludes (l[i].company) (rows[i])
          ∧ (∃ badge, getStatusBadge (l[i].status) = Except.ok badge
               ∧ strIncludes badge (rows[i]))
          ∧ strIncludes (formatDate env.tzOffset (l[i].applied_date)) (rows[i])
          ∧ strIncludes ("JobseekerDashboard.viewApplication(" ++ toString (l[i].id) ++ ")")
              (rows[i])
          ∧ viewApplication (l[i].id) = "/applications/" ++ toString (l[i].id)) := by
  have hmap := renderRows_map env.tzOffset l hstr
  refine ⟨l.map (rowOfRecord env.tzOffset), hmap, by simp, ?_, ?_⟩
  · have hne2 : l.isEmpty = false := by
      cases l with
      | nil => exact absurd rfl hne
      | cons a t => rfl
    unfold loadAppliedJobs
    rw [hc]
    unfold appliedJobsHTML appliedJobsResult
    rw [happs]
    simp [hne2, hmap]
  · intro i hi hj
    have hmem : l[i] ∈ l := List.getElem_mem hi
    obtain ⟨b, hb⟩ := getStatusBadge_str_ok (l[i].status) (hstr _ hmem)
    have hrow : (l.map (rowOfRecord env.tzOffset))[i] = rowOfRecord env.tzOffset l[i] := by
      simp [List.getElem_map]
    have hr : rowOfRecord env.tzOffset l[i]
        = rowHTML (l[i].job_title) (l[i].company) b
            (formatDate env.tzOffset (l[i].applied_date)) (l[i].id) := by
      unfold rowOfRecord
      rw [hb]
    rw [hrow, hr]
    exact ⟨rowHTML_includes_title _ _ _ _ _,
      rowHTML_includes_company _ _ _ _ _,
      ⟨b, hb, rowHTML_includes_badge _ _ _ _ _⟩,
      rowHTML_includes_date _ _ _ _ _,
      rowHTML_includes_view _ _ _ _ _,
      rfl⟩

/-- A first well-formed sample record. -/
def recA : AppRecord := AppRecord.mk 4 "Engineer" "Acme" (JSValue.str "pending") "2024-01-05"

/-- A second well-formed sample record, with unexpected status casing. -/
def recB : AppRecord := AppRecord.mk 5 "Designer" "Globex" (JSValue.str "ACCEPTED") "2024-02-10"

/-- The applications endpoint returns two well-formed records. -/
def twoRecsEnv : Env :=
  Env.mk (Except.ok (some [recA, recB])) (Except.ok sampleStats) 0

/-- Witness for C7: the theorem applied to a concrete two-record list on
the sample page. -/
theorem loadAppliedJobs_renders_each_record_witness :
    twoRecsEnv.appsResponse = Except.ok (some [recA, recB])
    ∧ [recA, recB] ≠ []
    ∧ (∀ app ∈ [recA, recB], app.status.isStr = true)
    ∧ sampleWorld.dom.appliedJobsTable = some ""
    ∧ (∃ rows : List String,
        renderRows twoRecsEnv.tzOffset [recA, recB] = Except.ok rows
        ∧ rows.length = [recA, recB].length
        ∧ (loadAppliedJobs twoRecsEnv sampleWorld).dom.appliedJobsTable
            = some (String.join rows)
        ∧ (∀ (i : Nat) (hi : i < [recA, recB].length) (hj : i < rows.length),
            strIncludes ([recA, recB][i].job_title) (rows[i])
            ∧ strIncludes ([recA, recB][i].company) (rows[i])
            ∧ (∃ badge, getStatusBadge ([recA, recB][i].status) = Except.ok badge
                 ∧ strIncludes badge (rows[i]))
            ∧ strIncludes (formatDate twoRecsEnv.tzOffset ([recA, recB][i].applied_date))
                (rows[i])
            ∧ strIncludes
                ("JobseekerDashboard.viewApplication(" ++ toString ([recA, recB][i].id) ++ ")")
                (rows[i])
            ∧ viewApplication ([recA, recB][i].id)
                = "/applications/" ++ toString ([recA, recB][i].id))) :=
  ⟨rfl, by decide, by decide, rfl,
    loadAppliedJobs_renders_each_record twoRecsEnv sampleWorld [recA, recB] ""
      rfl (by decide) (by decide) rfl⟩

/-- `loadAppliedJobs` logs exactly one applications fetch when the
container is present and nothing otherwise. -/
theorem loadAppliedJobs_log (env : Env) (w : World) :
    (loadAppliedJobs env w).log
      = w.log ++ (if w.dom.appliedJobsTable.isSome then
          [Event.fetch "/api/jobseeker/applications"] else []) := by
  unfold loadAppliedJobs
  cases hc : w.dom.appliedJobsTable with
  | none => simp
  | some html => simp

/-- `loadAppliedJobs` never touches `.dashboard-main`. -/
theorem loadAppliedJobs_main_classes (env : Env) (w : World) :
    (loadAppliedJobs env w).dom.dashboardMainClasses = w.dom.dashboardMainClasses := by
  unfold loadAppliedJobs
  cases hc : w.dom.appliedJobsTable with
  | none => rfl
  | some html => rfl

/-- `setLoading` never touches the applications container. -/
theorem setLoading_appliedJobsTable (b : Bool) (d : DOM) :
    (setLoading b d).appliedJobsTable = d.appliedJobsTable := by
  unfold setLoading
  cases hc : d.dashboardMainClasses with
  | none => rfl
  | some cls => rfl

/-- After `setLoading(false)` the `loading-fade` class is gone. -/
theorem setLoading_false_clears (d : DOM) :
    hasLoadingFade (setLoading false d) = false := by
  unfold setLoading
  cases hc : d.dashboardMainClasses with
  | none => simp [hasLoadingFade, hc]
  | some cls => simp [hasLoadingFade, List.contains]

/-- With `loadNotifications` undefined on the controller, one call of
`loadDashboardData` is: set loading, run `loadAppliedJobs`, log the
aggregate failure, clear loading. -/
theorem loadDashboardData_unfolded (env : Env) (w : World) :
    loadDashboardData env w
      = setLoadingOp false
          { loadAppliedJobs env (setLoadingOp true w) with
              log := (loadAppliedJobs env (setLoadingOp true w)).log
                       ++ [Event.consoleError "Dashboard data sync failed:"] } := by
  have hm : hasMethod "loadNotifications" = false := by decide
  unfold loadDashboardData promiseAllGroup
  rw [hm]
  simp

/-- The full event log of one `loadDashboardData` call. -/
theorem loadDashboardData_log (env : Env) (w : World) :
    (loadDashboardData env w).log
      = w.log ++ [Event.setLoadingEv true]
          ++ (if w.dom.appliedJobsTable.isSome then
                [Event.fetch "/api/jobseeker/applications"] else [])
          ++ [Event.consoleError "Dashboard data sync failed:", Event.setLoadingEv false] := by
  rw [loadDashboardData_unfolded]
  simp only [setLoadingOp, loadAppliedJobs_log]
  rw [setLoading_appliedJobsTable]
  simp [List.append_assoc]

/-- `loadDashboardData` always ends with the loading class removed. -/
theorem loadDashboardData_clears_loading (env : Env) (w : World) :
    hasLoadingFade (loadDashboardData env w).dom = false := by
  rw [loadDashboardData_unfolded]
  simp only [setLoadingOp]
  exact setLoading_false_clears _

/-- C2: with no `loadNotifications` method added to the controller, every
`loadDashboardData` call throws a `TypeError` while building the parallel
group, so the aggregate `catch` (`'Dashboard data sync failed:'`) fires on
every call, `updateKPIs` is never invoked — the stats endpoint is never
fetched, its array element being evaluated after the throwing one — and the
`finally` block still clears the loading state. -/
theorem loadDashboardData_always_hits_catch (env : Env) (w : World) :
    (promiseAllGroup env w).2 = some JSError.typeError
    ∧ (loadDashboardData env w).log
        = w.log ++ [Event.setLoadingEv true]
            ++ (if w.dom.appliedJobsTable.isSome then
                  [Event.fetch "/api/jobseeker/applications"] else [])
            ++ [Event.consoleError "Dashboard data sync failed:", Event.setLoadingEv false]
    ∧ (loadDashboardData env w).log.count (Event.fetch "/api/jobseeker/stats")
        = w.log.count (Event.fetch "/api/jobseeker/stats")
    ∧ hasLoadingFade (loadDashboardData env w).dom = false := by
  have hm : hasMethod "loadNotifications" = false := by decide
  refine ⟨?_, loadDashboardData_log env w, ?_, loadDashboardData_clears_loading env w⟩
  · unfold promiseAllGroup
    rw [hm]
    simp
  · rw [loadDashboardData_log]
    cases hts : w.dom.appliedJobsTable.isSome with
    | false => simp +decide [List.count_append]
    | true => simp +decide [List.count_append]

/-- C5: in `loadDashboardData` the loading state is set before the parallel
fetch group starts and cleared after it settles on every exit path: the
call's new events are exactly `setLoading(true)`, then a middle section
containing the group's fetches and console output but no `setLoading`
call, then `setLoading(false)`; and afterwards the `loading-fade` class is
never left on `.dashboard-main`. -/
theorem loadDashboardData_loading_scoped (env : Env) (w : World) :
    ∃ mid : List Event,
      (loadDashboardData env w).log
        = w.log ++ [Event.setLoadingEv true] ++ mid ++ [Event.setLoadingEv false]
      ∧ (∀ e ∈ mid, ∀ b : Bool, e ≠ Event.setLoadingEv b)
      ∧ hasLoadingFade (loadDashboardData env w).dom = false := by
  refine ⟨(if w.dom.appliedJobsTable.isSome then
        [Event.fetch "/api/jobseeker/applications"] else [])
      ++ [Event.consoleError "Dashboard data sync failed:"], ?_, ?_,
      loadDashboardData_clears_loading env w⟩
  · rw [loadDashboardData_log]
    simp [List.append_assoc]
  · intro e he b
    rcases List.mem_append.mp he with h | h
    · cases hts : w.dom.appliedJobsTable.isSome with
      | false =>
          rw [hts] at h
          simp at h
      | true =>
          rw [hts] at h
          simp at h
          rw [h]
          simp
    · simp at h
      rw [h]
      simp
